import Mathlib

/-!
Shallow embedding of `src/kg/build.py` from the outbreak_kg repository.

A mention is a `(namespace, identifier, display name)` triple.  The external
ontology service (`indra.databases.mesh_client` and
`indra.ontology.bio.bio_ontology`) is modelled as an abstract record of the
capabilities the code calls: `mesh_isa`, `is_disease`, the identifier-to-name
table and the direct-parent (`isa`) lookup.  The parsed
`promed_ner_terms_by_alert.json` file is a dict from archive number to
mention list, modelled as an association list.  `assemble_alert_relations`
iterates its `(archive_number, mentions)` items.  `assemble_coocurrence`
instead iterates the dict itself, which in Python yields its archive-number
KEYS: `assemble_coocurrence_run` models that loop as executed, including the
`IndexError` its sort key raises on pairs of key characters.  The loop body
of lines 46-53, which is written for pairs of mention triples, is embedded
separately (`sortPair`, `interesting_clause`, `pairOccurrencesAt`) to state
properties of the recording step those lines define.  Python `set`
containers are modelled by `List.dedup`.
-/

/-- A `(namespace, identifier, display name)` mention triple. -/
structure Mention where
  db : String
  id : String
  name : String
deriving DecidableEq

/-- The external ontology service interface used by `build.py`. -/
structure MeshClient where
  mesh_isa : String → String → Bool
  is_disease : String → Bool
  mesh_id_to_name : List (String × String)
  child_rel : String → String → List (String × String)

/-- `is_geoloc` from `build.py`. -/
def is_geoloc (ont : MeshClient) (x_db x_id : String) : Bool :=
  if x_db = "MESH" then ont.mesh_isa x_id "D005842" else false

/-- `is_pathogen` from `build.py`. -/
def is_pathogen (ont : MeshClient) (x_db x_id : String) : Bool :=
  if x_db = "MESH" then ont.mesh_isa x_id "D001419" || ont.mesh_isa x_id "D014780"
  else false

/-- `is_disease` from `build.py`. -/
def is_disease (ont : MeshClient) (x_db x_id : String) : Bool :=
  if x_db = "MESH" then ont.is_disease x_id else false

/-- The `exclude_list` stoplist from `build.py`. -/
def exclude_list : List String :=
  ["Disease", "Health", "Affected", "control", "Animals",
   "infection", "Viruses", "vaccination", "Vaccines",
   "Therapeutics", "Nature", "event", "Population",
   "Epidemiology", "Names", "submitted", "Laboratories",
   "Disease Outbreaks", "Central", "strain"]

/-- `itertools.combinations(xs, 2)` in list order. -/
def combinations2 {α : Type} : List α → List (α × α)
  | [] => []
  | x :: xs => (xs.map fun y => (x, y)) ++ combinations2 xs

/-- Python string `<`: lexicographic comparison of code points, a strict
prefix comparing below the longer string. -/
def charListLt : List Char → List Char → Bool
  | _, [] => false
  | [], _ :: _ => true
  | a :: as, b :: bs => a < b || (a == b && charListLt as bs)

/-- Python string `<` lifted to `String`. -/
def nameLt (a b : String) : Bool := charListLt a.data b.data

/-- `tuple(sorted([a, b], key=lambda x: x[2]))`: Python's stable sort swaps the
pair exactly when the second display name is strictly below the first. -/
def sortPair (p : Mention × Mention) : Mention × Mention :=
  if nameLt p.2.name p.1.name then (p.2, p.1) else (p.1, p.2)

/-- One directional interestingness test from `assemble_coocurrence`:
`(is_geoloc(a) and is_pathogen(b)) or (is_disease(a) and is_pathogen(b)) or
(is_geoloc(a) and is_disease(b))`. -/
def interesting_clause (ont : MeshClient) (a b : Mention) : Bool :=
  (is_geoloc ont a.db a.id && is_pathogen ont b.db b.id) ||
  (is_disease ont a.db a.id && is_pathogen ont b.db b.id) ||
  (is_geoloc ont a.db a.id && is_disease ont b.db b.id)

/-- The recording step of `assemble_coocurrence` (build.py 47-53) after the
sort: the sorted pair `(a, b)` is dropped if either name is stoplisted, and
otherwise appended to `interesting_pairs` once for each orientation whose
clause holds. -/
def pairOccurrencesAt (ont : MeshClient) (a b : Mention) :
    List (Mention × Mention) :=
  if a.name ∈ exclude_list ∨ b.name ∈ exclude_list then []
  else
    (if interesting_clause ont a b then [(a, b)] else []) ++
    (if interesting_clause ont b a then [(a, b)] else [])

/-- The occurrences the loop body of lines 46-53 would append to
`interesting_pairs` for a candidate pair of mention triples: the pair is
sorted on display name, then the recording step runs on the sorted pair.  In
the shipped function the enclosing loop never produces such a pair (see
`assemble_coocurrence_run`). -/
def pairOccurrences (ont : MeshClient) (p : Mention × Mention) :
    List (Mention × Mention) :=
  pairOccurrencesAt ont (sortPair p).1 (sortPair p).2


/-- `any([is_dis, is_pat, is_geo])` for a MESH identifier. -/
def classified3 (ont : MeshClient) (id : String) : Bool :=
  is_disease ont "MESH" id || is_pathogen ont "MESH" id || is_geoloc ont "MESH" id

/-- Node typing in `assemble_mesh_hierarchy`: disease, else pathogen, else
geoloc. -/
def hierNodeType (ont : MeshClient) (id : String) : String :=
  if is_disease ont "MESH" id then "disease"
  else if is_pathogen ont "MESH" id then "pathogen"
  else "geoloc"

/-- The `nodes` set of `assemble_mesh_hierarchy`. -/
def hierarchyNodes (ont : MeshClient) : List (String × String × String) :=
  (ont.mesh_id_to_name.filterMap fun e =>
    if classified3 ont e.1 then some ("MESH:" ++ e.1, e.2, hierNodeType ont e.1)
    else none).dedup

/-- The `edges` set of `assemble_mesh_hierarchy`: one `isa` edge to each
direct parent of each retained identifier. -/
def hierarchyEdges (ont : MeshClient) : List (String × String × String) :=
  (ont.mesh_id_to_name.flatMap fun e =>
    if classified3 ont e.1 then
      (ont.child_rel "MESH" e.1).map fun par =>
        ("MESH:" ++ e.1, "isa", par.1 ++ ":" ++ par.2)
    else []).dedup

/-- The `nodes` set of `assemble_alert_relations`. -/
def alertNodes (docs : List (String × List Mention)) :
    List (String × String × String) :=
  (docs.map fun d => ("promed:" ++ d.1, d.1, "alert")).dedup

/-- The mention-edge tuple emitted (or not) for one extraction in
`assemble_alert_relations`. -/
def mentionEdgeOf (ont : MeshClient) (arch : String) (m : Mention) :
    Option (String × String × String) :=
  if m.name ∈ exclude_list then none
  else if m.db = "MESH" then
    if is_disease ont m.db m.id || is_pathogen ont m.db m.id ||
        is_geoloc ont m.db m.id then
      some ("promed:" ++ arch, "mentions", "MESH:" ++ m.id)
    else none
  else none

/-- The `edges` set of `assemble_alert_relations`. -/
def alertEdges (ont : MeshClient) (docs : List (String × List Mention)) :
    List (String × String × String) :=
  (docs.flatMap fun d => d.2.filterMap (mentionEdgeOf ont d.1)).dedup

/-- Python iteration over a string yields its characters as length-1
strings. -/
def pyChars (s : String) : List String :=
  s.data.map fun c => String.mk [c]

/-- Python subscript `s[i]` on a string: `IndexError` when `i` is out of
range. -/
def pyGetItem (s : String) (i : Nat) : Except String String :=
  match s.data[i]? with
  | some c => Except.ok (String.mk [c])
  | none => Except.error "IndexError"

/-- Line 46, `tuple(sorted([a, b], key=lambda x: x[2]))`, as executed on two
elements: Python evaluates the sort key on each element first, so the call
raises `IndexError` whenever an element has fewer than three characters. -/
def sortByThirdItem (a b : String) : Except String (String × String) := do
  let ka ← pyGetItem a 2
  let kb ← pyGetItem b 2
  if nameLt kb ka then pure (b, a) else pure (a, b)

/-- One iteration of the outer loop of `assemble_coocurrence` (build.py
43-46) as written: `jj` is the parsed JSON dict, so `for alert in
tqdm.tqdm(jj)` binds `alert` to an archive-number KEY in turn;
`combinations(alert, 2)` then enumerates pairs of the key's characters, and
line 46 raises `IndexError` evaluating the sort key `x[2]`, since each
element is a length-1 string.  Lines 47-53 are unreachable for such pairs,
so the model runs the loop through line 46. -/
def coocProcessKey (alert : String) : Except String (List (String × String)) :=
  (combinations2 (pyChars alert)).mapM fun p => sortByThirdItem p.1 p.2

/-- `assemble_coocurrence` on the parsed corpus, through line 46 of every
iteration: the dict iteration consumes only the keys; the mention lists are
never read. -/
def assemble_coocurrence_run (jj : List (String × List Mention)) :
    Except String (List (List (String × String))) :=
  (jj.map Prod.fst).mapM coocProcessKey


/-- A concrete ontology snapshot used to exercise the definitions: `D001419`
and `D014780` are their own roots (pathogen), `D005842` its own root
(geolocation), `D003141` a disease. -/
def testOnt : MeshClient where
  mesh_isa := fun id root =>
    (id == "D001419" && root == "D001419") ||
    (id == "D014780" && root == "D014780") ||
    (id == "D005842" && root == "D005842")
  is_disease := fun id => id == "D003141"
  mesh_id_to_name := [("D003141", "Communicable Diseases"), ("D000001", "Calcimycin")]
  child_rel := fun _ id => if id == "D003141" then [("MESH", "D000001")] else []

def bacteriaM : Mention := ⟨"MESH", "D001419", "Bacteria"⟩
def egyptM : Mention := ⟨"MESH", "D005842", "Egypt"⟩

def commDisM : Mention := ⟨"MESH", "D003141", "Communicable Diseases"⟩

def diseaseNamedM : Mention := ⟨"MESH", "D003141", "Disease"⟩

/-! ### Helper lemmas -/

lemma sortPair_eq_or (p : Mention × Mention) :
    sortPair p = p ∨ sortPair p = (p.2, p.1) := by
  unfold sortPair
  split
  · right; rfl
  · left; rfl

lemma mem_pairOccurrencesAt {ont : MeshClient} {a b : Mention}
    {occ : Mention × Mention} :
    occ ∈ pairOccurrencesAt ont a b ↔
      occ = (a, b) ∧ ¬(a.name ∈ exclude_list ∨ b.name ∈ exclude_list) ∧
      (interesting_clause ont a b = true ∨ interesting_clause ont b a = true) := by
  by_cases hex : a.name ∈ exclude_list ∨ b.name ∈ exclude_list
  · simp [pairOccurrencesAt, hex]
  · by_cases hc1 : interesting_clause ont a b = true <;>
      by_cases hc2 : interesting_clause ont b a = true <;>
        simp [pairOccurrencesAt, hex, hc1, hc2]

lemma mem_pairOccurrences {ont : MeshClient} {p occ : Mention × Mention} :
    occ ∈ pairOccurrences ont p ↔
      occ = sortPair p ∧
      ¬((sortPair p).1.name ∈ exclude_list ∨ (sortPair p).2.name ∈ exclude_list) ∧
      (interesting_clause ont (sortPair p).1 (sortPair p).2 = true ∨
       interesting_clause ont (sortPair p).2 (sortPair p).1 = true) := by
  unfold pairOccurrences
  rcases sortPair_eq_or p with h | h <;> rw [h] <;> exact mem_pairOccurrencesAt


lemma charListLt_asymm :
    ∀ xs ys : List Char, charListLt xs ys = true → charListLt ys xs = false
  | _, [], h => by simp [charListLt] at h
  | [], _ :: _, _ => by simp [charListLt]
  | a :: as, b :: bs, h => by
    simp only [charListLt, Bool.or_eq_true, Bool.and_eq_true, beq_iff_eq,
      decide_eq_true_eq] at h
    simp only [charListLt, Bool.or_eq_false_iff, Bool.and_eq_false_iff,
      decide_eq_false_iff_not, beq_eq_false_iff_ne, ne_eq]
    rcases h with h | ⟨heq, h⟩
    · exact ⟨lt_asymm h, Or.inl (Ne.symm (ne_of_lt h))⟩
    · subst heq
      exact ⟨lt_irrefl a, Or.inr (charListLt_asymm as bs h)⟩

lemma nameLt_asymm {a b : String} (h : nameLt a b = true) : nameLt b a = false :=
  charListLt_asymm a.data b.data h

lemma sortPair_not_descending (p : Mention × Mention) :
    nameLt (sortPair p).2.name (sortPair p).1.name = false := by
  unfold sortPair
  split
  · rename_i h
    exact nameLt_asymm h
  · rename_i h
    exact Bool.not_eq_true _ ▸ h

/-! ### The claims -/

/-- C4: `is_geoloc` holds iff the namespace is MESH and the identifier is-a
the geographic-locations root `D005842`; `is_pathogen` iff MESH and is-a the
bacteria root `D001419` or the viruses root `D014780`; `is_disease` iff MESH
and the ontology's disease capability holds; and for any non-MESH namespace
all three predicates are false. -/
theorem c4_classifier_characterization (ont : MeshClient) (ns id : String) :
    (is_geoloc ont ns id = true ↔ ns = "MESH" ∧ ont.mesh_isa id "D005842" = true) ∧
    (is_pathogen ont ns id = true ↔
      ns = "MESH" ∧
        (ont.mesh_isa id "D001419" = true ∨ ont.mesh_isa id "D014780" = true)) ∧
    (is_disease ont ns id = true ↔ ns = "MESH" ∧ ont.is_disease id = true) ∧
    (ns ≠ "MESH" →
      is_geoloc ont ns id = false ∧ is_pathogen ont ns id = false ∧
        is_disease ont ns id = false) := by
  unfold is_geoloc is_pathogen is_disease
  by_cases h : ns = "MESH" <;> simp [h]

/-- Witness for C4 at a concrete unsupported namespace. -/
theorem c4_witness :
    is_geoloc testOnt "DOID" "D005842" = false ∧
    is_pathogen testOnt "DOID" "D005842" = false ∧
    is_disease testOnt "DOID" "D005842" = false :=
  (c4_classifier_characterization testOnt "DOID" "D005842").2.2.2 (by decide)

/-- C8 amended: every recorded InterestingPair is stored in the canonical
display-name-sorted orientation (one copy per matching orientation); the
orientation in which the match was found is not retained. -/
theorem c8_amended_canonical_orientation (ont : MeshClient)
    (p occ : Mention × Mention) (h : occ ∈ pairOccurrences ont p) :
    occ = sortPair p ∧ nameLt occ.2.name occ.1.name = false := by
  have := (mem_pairOccurrences.1 h).1
  exact ⟨this, this ▸ sortPair_not_descending p⟩

/-- Witness for the amended C8: the match is found in orientation
`(Egypt, Bacteria)` but the recorded pair is sorted. -/
theorem c8_amended_witness :
    (bacteriaM, egyptM) = sortPair (egyptM, bacteriaM) ∧
    nameLt (bacteriaM, egyptM).2.name (bacteriaM, egyptM).1.name = false :=
  c8_amended_canonical_orientation testOnt (egyptM, bacteriaM)
    (bacteriaM, egyptM) (by decide)

lemma mesh_curie_inj {a b : String} (h : "MESH:" ++ a = "MESH:" ++ b) :
    a = b := by
  have hd := congrArg String.data h
  simp only [String.data_append] at hd
  exact String.ext (List.append_cancel_left hd)

/-- C7: the hierarchy assembler emits a NodeRecord exactly for identifiers
satisfying at least one predicate (typed disease, else pathogen, else
geoloc), and emits one `isa` edge per direct parent of each retained
identifier regardless of the parent's classification; unclassified
identifiers never get a node. -/
theorem c7_hierarchy_nodes_and_edges (ont : MeshClient) :
    (∀ id name, (id, name) ∈ ont.mesh_id_to_name → classified3 ont id = true →
      ("MESH:" ++ id, name, hierNodeType ont id) ∈ hierarchyNodes ont) ∧
    (∀ nd ∈ hierarchyNodes ont, ∃ id name,
      (id, name) ∈ ont.mesh_id_to_name ∧ classified3 ont id = true ∧
      nd = ("MESH:" ++ id, name, hierNodeType ont id)) ∧
    (∀ id name par, (id, name) ∈ ont.mesh_id_to_name →
      classified3 ont id = true → par ∈ ont.child_rel "MESH" id →
      ("MESH:" ++ id, "isa", par.1 ++ ":" ++ par.2) ∈ hierarchyEdges ont) ∧
    (∀ id, classified3 ont id = false →
      ∀ name ty, ("MESH:" ++ id, name, ty) ∉ hierarchyNodes ont) ∧
    (∀ id,
      (is_disease ont "MESH" id = true → hierNodeType ont id = "disease") ∧
      (is_disease ont "MESH" id = false → is_pathogen ont "MESH" id = true →
        hierNodeType ont id = "pathogen") ∧
      (is_disease ont "MESH" id = false → is_pathogen ont "MESH" id = false →
        hierNodeType ont id = "geoloc")) := by
  refine ⟨?_, ?_, ?_, ?_, ?_⟩
  · intro id name hmem hcl
    simp only [hierarchyNodes, List.mem_dedup, List.mem_filterMap]
    exact ⟨(id, name), hmem, by simp [hcl]⟩
  · intro nd hnd
    simp only [hierarchyNodes, List.mem_dedup, List.mem_filterMap] at hnd
    rcases hnd with ⟨e, hmem, he⟩
    by_cases hcl : classified3 ont e.1 = true
    · rw [if_pos hcl] at he
      exact ⟨e.1, e.2, hmem, hcl, (Option.some_inj.1 he).symm⟩
    · rw [if_neg hcl] at he
      exact absurd he (by simp)
  · intro id name par hmem hcl hpar
    simp only [hierarchyEdges, List.mem_dedup, List.mem_flatMap]
    refine ⟨(id, name), hmem, ?_⟩
    rw [if_pos hcl]
    exact List.mem_map_of_mem _ hpar
  · intro id hcl name ty hmem
    simp only [hierarchyNodes, List.mem_dedup, List.mem_filterMap] at hmem
    rcases hmem with ⟨e, _, he⟩
    by_cases hcl' : classified3 ont e.1 = true
    · rw [if_pos hcl'] at he
      have h1 := congrArg (fun r => r.1) (Option.some_inj.1 he)
      simp only at h1
      rw [mesh_curie_inj h1] at hcl'
      rw [hcl'] at hcl
      exact absurd hcl (by simp)
    · rw [if_neg hcl'] at he
      exact absurd he (by simp)
  · intro id
    refine ⟨fun h1 => ?_, fun h1 h2 => ?_, fun h1 h2 => ?_⟩
    · simp [hierNodeType, h1]
    · simp [hierNodeType, h1, h2]
    · simp [hierNodeType, h1, h2]

/-- Witness for C7: in the concrete snapshot, the disease identifier
`D003141` (whose only parent `D000001` is unclassified) yields its node and
its `isa` edge, while the parent gets no node. -/
theorem c7_witness :
    ("MESH:" ++ "D003141", "Communicable Diseases",
      hierNodeType testOnt "D003141") ∈ hierarchyNodes testOnt ∧
    ("MESH:" ++ "D003141", "isa", "MESH" ++ ":" ++ "D000001") ∈
      hierarchyEdges testOnt ∧
    ("MESH:" ++ "D000001", "Calcimycin", "disease") ∉ hierarchyNodes testOnt :=
  ⟨(c7_hierarchy_nodes_and_edges testOnt).1 "D003141" "Communicable Diseases"
      (by decide) (by decide),
   (c7_hierarchy_nodes_and_edges testOnt).2.2.1 "D003141" "Communicable Diseases"
      ("MESH", "D000001") (by decide) (by decide) (by decide),
   (c7_hierarchy_nodes_and_edges testOnt).2.2.2.1 "D000001" (by decide)
      "Calcimycin" "disease"⟩

lemma classified_db_mesh {ont : MeshClient} {db id : String}
    (h : is_disease ont db id = true ∨ is_pathogen ont db id = true ∨
      is_geoloc ont db id = true) : db = "MESH" := by
  by_cases hdb : db = "MESH"
  · exact hdb
  · rcases h with h | h | h <;>
      simp [is_disease, is_pathogen, is_geoloc, hdb] at h

lemma mentionEdgeOf_eq_some {ont : MeshClient} {arch : String} {m : Mention}
    {e : String × String × String} :
    mentionEdgeOf ont arch m = some e ↔
      m.name ∉ exclude_list ∧
      (is_disease ont m.db m.id = true ∨ is_pathogen ont m.db m.id = true ∨
        is_geoloc ont m.db m.id = true) ∧
      e = ("promed:" ++ arch, "mentions", "MESH:" ++ m.id) := by
  constructor
  · intro h
    unfold mentionEdgeOf at h
    by_cases h1 : m.name ∈ exclude_list
    · rw [if_pos h1] at h
      exact absurd h (by simp)
    · rw [if_neg h1] at h
      by_cases h2 : m.db = "MESH"
      · rw [if_pos h2] at h
        by_cases h3 : (is_disease ont m.db m.id || is_pathogen ont m.db m.id ||
            is_geoloc ont m.db m.id) = true
        · rw [if_pos h3] at h
          refine ⟨h1, ?_, (Option.some_inj.1 h).symm⟩
          simpa [Bool.or_eq_true, or_assoc] using h3
        · rw [if_neg h3] at h
          exact absurd h (by simp)
      · rw [if_neg h2] at h
        exact absurd h (by simp)
  · rintro ⟨h1, h2, rfl⟩
    have h2' := classified_db_mesh h2
    unfold mentionEdgeOf
    rw [if_neg h1, if_pos h2',
      if_pos (show (is_disease ont m.db m.id || is_pathogen ont m.db m.id ||
        is_geoloc ont m.db m.id) = true by
          simpa [Bool.or_eq_true, or_assoc] using h2)]

lemma nodup_count_eq_one {α : Type} [BEq α] [LawfulBEq α] {l : List α} {a : α}
    (hn : l.Nodup) (ha : a ∈ l) : l.count a = 1 := by
  induction l with
  | nil => cases ha
  | cons x xs ih =>
    rw [List.count_cons]
    rcases List.nodup_cons.1 hn with ⟨hx, hxs⟩
    rcases List.mem_cons.1 ha with rfl | ha2
    · have h0 : xs.count a = 0 := List.count_eq_zero.2 hx
      simp [h0]
    · have hxa : ¬(x == a) = true := by
        intro hxa
        exact hx (eq_of_beq hxa ▸ ha2)
      simp [ih hxs ha2, hxa]

lemma nodup_count_le_one {α : Type} [BEq α] [LawfulBEq α] {l : List α}
    (hn : l.Nodup) (a : α) : l.count a ≤ 1 := by
  by_cases ha : a ∈ l
  · rw [nodup_count_eq_one hn ha]
  · rw [List.count_eq_zero.2 ha]
    omega

/-- C9: the mentions assembler emits exactly one `alert` NodeRecord per
document id, emits a `mentions` edge at most once per distinct
(document, concept) pair, emits an edge exactly for non-stoplisted mentions
classified as disease, pathogen or geolocation, and emits no concept-side
NodeRecords. -/
theorem c9_alert_relations (ont : MeshClient)
    (docs : List (String × List Mention)) :
    (∀ arch ms, (arch, ms) ∈ docs →
      (alertNodes docs).count ("promed:" ++ arch, arch, "alert") = 1) ∧
    (∀ nd ∈ alertNodes docs, ∃ arch ms, (arch, ms) ∈ docs ∧
      nd = ("promed:" ++ arch, arch, "alert")) ∧
    (∀ nd ∈ alertNodes docs, nd.2.2 = "alert") ∧
    (∀ e, (alertEdges ont docs).count e ≤ 1) ∧
    (∀ e ∈ alertEdges ont docs, ∃ arch ms m, (arch, ms) ∈ docs ∧ m ∈ ms ∧
      m.name ∉ exclude_list ∧
      (is_disease ont m.db m.id = true ∨ is_pathogen ont m.db m.id = true ∨
        is_geoloc ont m.db m.id = true) ∧
      e = ("promed:" ++ arch, "mentions", "MESH:" ++ m.id)) ∧
    (∀ arch ms m, (arch, ms) ∈ docs → m ∈ ms → m.name ∉ exclude_list →
      (is_disease ont m.db m.id = true ∨ is_pathogen ont m.db m.id = true ∨
        is_geoloc ont m.db m.id = true) →
      ("promed:" ++ arch, "mentions", "MESH:" ++ m.id) ∈ alertEdges ont docs) := by
  have hmemnode : ∀ nd, nd ∈ alertNodes docs ↔
      ∃ d ∈ docs, ("promed:" ++ d.1, d.1, "alert") = nd := by
    intro nd
    simp [alertNodes, List.mem_dedup, List.mem_map]
  refine ⟨?_, ?_, ?_, ?_, ?_, ?_⟩
  · intro arch ms hmem
    exact nodup_count_eq_one (List.nodup_dedup _)
      ((hmemnode _).2 ⟨(arch, ms), hmem, rfl⟩)
  · intro nd hnd
    rcases (hmemnode nd).1 hnd with ⟨d, hd, heq⟩
    exact ⟨d.1, d.2, Prod.mk.eta ▸ hd, heq.symm⟩
  · intro nd hnd
    rcases (hmemnode nd).1 hnd with ⟨d, _, heq⟩
    rw [← heq]
  · intro e
    exact nodup_count_le_one (List.nodup_dedup _) e
  · intro e he
    simp only [alertEdges, List.mem_dedup, List.mem_flatMap,
      List.mem_filterMap] at he
    rcases he with ⟨d, hd, m, hm, hsome⟩
    rcases mentionEdgeOf_eq_some.1 hsome with ⟨h1, h2, h3⟩
    exact ⟨d.1, d.2, m, Prod.mk.eta ▸ hd, hm, h1, h2, h3⟩
  · intro arch ms m hmem hm h1 h2
    simp only [alertEdges, List.mem_dedup, List.mem_flatMap,
      List.mem_filterMap]
    exact ⟨(arch, ms), hmem, m, hm, mentionEdgeOf_eq_some.2 ⟨h1, h2, rfl⟩⟩

/-- Witness for C9 at a concrete one-document corpus. -/
theorem c9_witness :
    (alertNodes [("20230101.1", [bacteriaM])]).count
      ("promed:" ++ "20230101.1", "20230101.1", "alert") = 1 ∧
    ("promed:" ++ "20230101.1", "mentions", "MESH:" ++ "D001419") ∈
      alertEdges testOnt [("20230101.1", [bacteriaM])] :=
  ⟨(c9_alert_relations testOnt [("20230101.1", [bacteriaM])]).1
      "20230101.1" [bacteriaM] (by decide),
   (c9_alert_relations testOnt [("20230101.1", [bacteriaM])]).2.2.2.2.2
      "20230101.1" [bacteriaM] bacteriaM (by decide) (by decide) (by decide)
      (Or.inr (Or.inl (by decide)))⟩

/-- C8 fails at the recording step it cites (build.py 49-53): for the
candidate pair (Bacteria, Egypt) the only matching orientation is
(Egypt, Bacteria), yet the tuple appended is the display-name-sorted
(Bacteria, Egypt); and in the shipped function the enclosing loop raises
`IndexError` before any mention pair even reaches this step. -/
theorem c8_counterexample :
    interesting_clause testOnt bacteriaM egyptM = false ∧
    interesting_clause testOnt egyptM bacteriaM = true ∧
    pairOccurrences testOnt (bacteriaM, egyptM) = [(bacteriaM, egyptM)] ∧
    (bacteriaM, egyptM) ≠ (egyptM, bacteriaM) ∧
    assemble_coocurrence_run [("20230105.0005", [bacteriaM, egyptM])] =
      Except.error "IndexError" :=
  ⟨by decide, by decide, by decide, by decide, rfl⟩

/-- C1 (code bug): on the corpus containing the Bacteria/Egypt document, the
loop of `assemble_coocurrence` binds its variable to the archive-number key,
enumerates pairs of the key's characters, and raises `IndexError` at the
line-46 sort key — no pair of mentions is ever judged interesting and no
`occurs_with` edge is produced. -/
theorem c1_cooc_crashes_on_scenario :
    assemble_coocurrence_run [("20230101.0001", [bacteriaM, egyptM])] =
      Except.error "IndexError" := rfl

/-- C2 (code bug): the two-document corpus the claim expects to aggregate to
count 2 makes `assemble_coocurrence` raise `IndexError` at the first key's
first character pair; no occurrence is recorded and no count aggregated. -/
theorem c2_cooc_crashes_on_two_docs :
    assemble_coocurrence_run
      [("20230101.0001", [bacteriaM, egyptM]),
       ("20230102.0002", [bacteriaM, egyptM])] =
      Except.error "IndexError" := rfl

/-- C3 (code bug): aggregation order-independence cannot be observed on the
program; both mention orders of the document make `assemble_coocurrence`
raise `IndexError` before any occurrence is counted. -/
theorem c3_cooc_crashes_both_orders :
    assemble_coocurrence_run [("20230103.0003", [bacteriaM, egyptM])] =
      Except.error "IndexError" ∧
    assemble_coocurrence_run [("20230103.0003", [egyptM, bacteriaM])] =
      Except.error "IndexError" :=
  ⟨rfl, rfl⟩

/-- C5 (code bug): the document whose stoplist-filtered mention count the
claim says yields `C(k, 2)` candidate pairs never has its mentions paired:
`assemble_coocurrence` enumerates 2-combinations of the characters of the
archive-number key and raises `IndexError` at the sort key. -/
theorem c5_cooc_crashes_before_pairing :
    assemble_coocurrence_run
      [("20230104.0004", [bacteriaM, diseaseNamedM, egyptM])] =
      Except.error "IndexError" := rfl

/-- C6 (code bug): whatever the document's mentions, `assemble_coocurrence`
raises `IndexError` while iterating the archive-number key, so no endpoint
is ever registered as a NodeRecord. -/
theorem c6_cooc_crashes_any_mentions (ms : List Mention) :
    assemble_coocurrence_run [("20230106.0006", ms)] =
      Except.error "IndexError" := rfl

/-- Witness for C6 at a concrete mention list. -/
theorem c6_cooc_crashes_witness :
    assemble_coocurrence_run [("20230106.0006", [egyptM])] =
      Except.error "IndexError" :=
  c6_cooc_crashes_any_mentions [egyptM]

/-- C10 (code bug): `assemble_coocurrence` raises `IndexError` before its
node-typing loop runs, so no fallback-typed NodeRecord is ever produced. -/
theorem c10_cooc_crashes_before_typing :
    assemble_coocurrence_run [("20230110.0010", [commDisM, egyptM])] =
      Except.error "IndexError" := rfl
